import Mathlib

/-!
Shallow embedding of the khopilot/paddle-NF OCR batch pipeline.

The embedding covers, from the source:
* the quality scorer `calculate_metrics` (client_test_northflank.py 176-188),
* the image normalizetion step of `extract_text` (app.py 113-117) and
  `extract_from_image` (ocr_service.py 40-44),
* the token count of `extract_text` (app.py 146),
* the client batch loop `NorthflankOCRClient.process_pdf`
  (client_test_northflank.py 89-174) together with `save_results` and
  `print_summary` (190-234),
* the service batch loop `NorthflankOCRService.process_pdf`
  (ocr_service.py 69-106), whose body reads the name `io` that is bound
  only under the module `__main__` guard (ocr_service.py 109-114),
* the `/ocr/batch` endpoint `batch_extract` (app.py 154-196).

Remote HTTP calls, page rendering and model inference are represented by
outcome oracles (one result per page index / per file); everything that the
repository itself computes is translated directly.
-/

namespace PaddleNF

/-- Edit distance between two character lists: the minimum number of
single-character insertions, deletions and substitutions.  This models the
external `Levenshtein.distance` library call made by `calculate_metrics`
(client_test_northflank.py 178) with the textbook recurrence. -/
def levenshtein : List Char → List Char → ℕ
  | [], ys => ys.length
  | x :: xs, [] => (x :: xs).length
  | x :: xs, y :: ys =>
    min (1 + levenshtein xs (y :: ys))
      (min (1 + levenshtein (x :: xs) ys)
        ((if x = y then 0 else 1) + levenshtein xs ys))

/-- The metrics dict built by `calculate_metrics`
(client_test_northflank.py 182-188). -/
structure Metrics where
  cer : ℚ
  accuracy : ℚ
  edit_distance : ℕ
  ref_length : ℕ
  hyp_length : ℕ
deriving Repr, DecidableEq

/-- `NorthflankOCRClient.calculate_metrics` (client_test_northflank.py
176-188): cer guarded by `len(reference) > 0`, accuracy guarded by
`max(len(reference), len(hypothesis)) > 0`. -/
def calculate_metrics (reference hypothesis : List Char) : Metrics :=
  let distance := levenshtein reference hypothesis
  { cer := if 0 < reference.length then (distance : ℚ) / (reference.length : ℚ) else 0,
    accuracy :=
      if 0 < max reference.length hypothesis.length then
        1 - (distance : ℚ) / ((max reference.length hypothesis.length : ℕ) : ℚ)
      else 1,
    edit_distance := distance,
    ref_length := reference.length,
    hyp_length := hypothesis.length }

/-- The resize step shared by `extract_text` (app.py 113-117) and
`extract_from_image` (ocr_service.py 40-44), on pixel dimensions:
`if max(image.size) > resize_max`, both dimensions are multiplied by
`resize_max / max(image.size)` and passed through Python `int(...)`, which
truncates (for nonnegative values, the floor). -/
def normalize (w h resize_max : ℕ) : ℕ × ℕ :=
  if resize_max < max w h then
    (⌊(w : ℚ) * ((resize_max : ℚ) / ((max w h : ℕ) : ℚ))⌋₊,
     ⌊(h : ℚ) * ((resize_max : ℚ) / ((max w h : ℕ) : ℚ))⌋₊)
  else (w, h)

/-- The `tokens_generated` value of `extract_text` (app.py 146) and the
`tokens` value of `extract_from_image` (ocr_service.py 66):
`len(outputs[0]) - len(inputs['input_ids'][0])`, a plain signed difference. -/
def tokens_generated (outLen promptLen : ℕ) : ℤ := (outLen : ℤ) - (promptLen : ℤ)

/-- Outcome of rendering one page and sending it through OCR: either the
service's successful JSON payload (text, processing time, token count) or
the message of the exception raised on the way (render failure, HTTP
failure, non-200 response). -/
inductive PageOutcome where
  | ok (text : List Char) (time : ℚ) (tokens : ℤ)
  | err (msg : String)
deriving Repr, DecidableEq

/-- One entry of the client's `results` list (client_test_northflank.py
136-150 and 164-167): a success dict carries the service payload keys plus
`page_num` and optional metrics; a failure dict carries only `page_num`
and `error`. -/
structure ClientRecord where
  page_num : ℕ
  extracted_text : Option (List Char)
  processing_time : Option ℚ
  tokens_generated : Option ℤ
  metrics : Option Metrics
  error : Option String
deriving Repr, DecidableEq

/-- The failure dict `{'page_num': page_num + 1, 'error': str(e)}`
(client_test_northflank.py 164-167). -/
def err_rec (n : ℕ) (msg : String) : ClientRecord :=
  { page_num := n, extracted_text := none, processing_time := none,
    tokens_generated := none, metrics := none, error := some msg }

/-- A success dict (client_test_northflank.py 136-148). -/
def ok_rec (n : ℕ) (text : List Char) (t : ℚ) (tok : ℤ) (m : Option Metrics) :
    ClientRecord :=
  { page_num := n, extracted_text := some text, processing_time := some t,
    tokens_generated := some tok, metrics := m, error := none }

/-- The page banner prepended to each page's text in `all_text`
(client_test_northflank.py 142). -/
def page_marker (n : ℕ) (text : List Char) : List Char :=
  ("=== Page " ++ toString n ++ " ===\n").data ++ text ++ ['\n']

/-- Sum of the `processing_time` entries of a record list; the client only
evaluates it when every record carries one (client_test_northflank.py 157). -/
def sum_times (l : List ClientRecord) : ℚ :=
  (l.map (fun r => r.processing_time.getD 0)).sum

/-- Accumulated loop state of `NorthflankOCRClient.process_pdf`:
the `results` list, the `all_text` list, and the ETA values of the
progress notifications actually printed. -/
structure LoopAcc where
  results : List ClientRecord
  all_text : List (List Char)
  etas : List ℚ
deriving Repr, DecidableEq

/-- One iteration of the page loop of `NorthflankOCRClient.process_pdf`
(client_test_northflank.py 124-167).  The whole body runs inside one
`try`: a render/HTTP failure records an error dict; on success the record
(and the page text) is appended, and on every 10th page the progress
update is attempted.  The progress update reads `r['processing_time']` of
every record so far, so when some earlier record is an error dict it
raises `KeyError`, which the same `except` turns into a second record for
the current page; otherwise it emits
`eta = (end_page - page_num - 1) * (sum of times / number of records)`. -/
def client_step (gt : List (List Char)) (oc : ℕ → PageOutcome) (sp ep : ℕ)
    (acc : LoopAcc) (p : ℕ) : LoopAcc :=
  match oc p with
  | .err msg => { acc with results := acc.results ++ [err_rec (p + 1) msg] }
  | .ok text t tok =>
    let m : Option Metrics :=
      if p < gt.length then some (calculate_metrics (gt.getD p []) text) else none
    let results' := acc.results ++ [ok_rec (p + 1) text t tok m]
    let texts' := acc.all_text ++ [page_marker (p + 1) text]
    if (p - sp + 1) % 10 = 0 then
      if results'.all (fun r => r.processing_time.isSome) then
        { results := results', all_text := texts',
          etas := acc.etas ++
            [(((ep - p - 1 : ℕ) : ℚ)) * (sum_times results' / (results'.length : ℚ))] }
      else
        { results := results' ++ [err_rec (p + 1) "KeyError: processing_time"],
          all_text := texts', etas := acc.etas }
    else { results := results', all_text := texts', etas := acc.etas }

/-- `end_page = start_page + num_pages if num_pages else total_pages;`
`end_page = min(end_page, total_pages)` (client_test_northflank.py
115-116).  A `num_pages` of Python `None` or `0` is falsy. -/
def client_end_page (tot sp : ℕ) (np : Option ℕ) : ℕ :=
  min (match np with | some n => if n = 0 then tot else sp + n | none => tot) tot

/-- The page loop of `NorthflankOCRClient.process_pdf`
(client_test_northflank.py 121-167): pages `start_page` to `end_page - 1`
in increasing order, starting from empty accumulators. -/
def client_process_pdf (tot sp : ℕ) (np : Option ℕ) (gt : List (List Char))
    (oc : ℕ → PageOutcome) : LoopAcc :=
  (List.range (client_end_page tot sp np - sp)).foldl
    (fun acc i => client_step gt oc sp (client_end_page tot sp np) acc (sp + i))
    ⟨[], [], []⟩

/-- Insertion into a sorted rational list. -/
def insert_sorted (x : ℚ) : List ℚ → List ℚ
  | [] => [x]
  | y :: ys => if x ≤ y then x :: y :: ys else y :: insert_sorted x ys

/-- Insertion sort on rationals, used for the pandas median. -/
def sort_rat (l : List ℚ) : List ℚ := l.foldr insert_sorted []

/-- pandas `Series.mean` over the non-null values. -/
def list_mean (l : List ℚ) : ℚ := l.sum / (l.length : ℚ)

/-- pandas `Series.median` over the non-null values: middle element of the
sorted list, or the mean of the two middle elements for even length.
(`print_summary` only evaluates it on nonempty columns.) -/
def list_median (l : List ℚ) : ℚ :=
  let s := sort_rat l
  if s.length % 2 = 1 then s.getD (s.length / 2) 0
  else (s.getD (s.length / 2 - 1) 0 + s.getD (s.length / 2) 0) / 2

/-- The statistics printed by `print_summary` (client_test_northflank.py
217-234). -/
structure Summary where
  total_pages : ℕ
  total_time : ℚ
  avg_time_page : ℚ
  cer_mean : Option ℚ
  cer_median : Option ℚ
  accuracy_mean : Option ℚ
  accuracy_median : Option ℚ
deriving Repr, DecidableEq

/-- `NorthflankOCRClient.print_summary` (client_test_northflank.py
217-234).  `pd.DataFrame(results)` has a `processing_time` column exactly
when some record dict carries that key; with no such record,
`df['processing_time']` raises `KeyError`.  With the column present,
`sum`/`mean` skip the null entries of failed pages.  The quality block is
guarded by `if 'cer' in df.columns`. -/
def print_summary (results : List ClientRecord) : Except String Summary :=
  let ts := results.filterMap (fun r => r.processing_time)
  if ts.isEmpty then .error "KeyError: processing_time"
  else
    let cers := results.filterMap (fun r => r.metrics.map (fun m => m.cer))
    let accs := results.filterMap (fun r => r.metrics.map (fun m => m.accuracy))
    .ok { total_pages := results.length,
          total_time := ts.sum,
          avg_time_page := list_mean ts,
          cer_mean := if cers.isEmpty then none else some (list_mean cers),
          cer_median := if cers.isEmpty then none else some (list_median cers),
          accuracy_mean := if accs.isEmpty then none else some (list_mean accs),
          accuracy_median := if accs.isEmpty then none else some (list_median accs) }

/-- `NorthflankOCRClient.save_results` (client_test_northflank.py 190-215),
reduced to its data content: the concatenated `all_text` blob written to
the text file, and then the outcome of `print_summary` on the records. -/
def save_results (results : List ClientRecord) (all_text : List (List Char)) :
    List Char × Except String Summary :=
  (all_text.flatten, print_summary results)

/-- Exceptions that can escape `NorthflankOCRService.process_pdf`: the
`NameError` for an unbound name, a page render failure, or an inference
failure.  The repository defines no `ConfigurationError` anywhere. -/
inductive SvcError where
  | nameError (name : String)
  | renderError (msg : String)
  | inferError (msg : String)
deriving Repr, DecidableEq

/-- One entry of the service's `results` list (ocr_service.py 63-67, 97). -/
structure SvcResult where
  text : List Char
  time : ℚ
  tokens : ℤ
  page_num : ℕ
deriving Repr, DecidableEq

/-- One iteration of the page loop of `NorthflankOCRService.process_pdf`
(ocr_service.py 86-103).  The pixmap is rendered first; then the code
evaluates `io.BytesIO`, and the name `io` is bound only inside the
module's `__main__` guard (ocr_service.py 110-111), so with the module
imported (`ioInScope = false`) this raises `NameError`; only afterwards is
the image sent to inference.  Nothing is caught. -/
def svc_page (ioInScope : Bool) (render : ℕ → Except String Unit)
    (oc : ℕ → PageOutcome) (p : ℕ) : Except SvcError SvcResult :=
  match render p with
  | .error m => .error (.renderError m)
  | .ok _ =>
    if ioInScope then
      match oc p with
      | .ok text t tok => .ok { text := text, time := t, tokens := tok, page_num := p + 1 }
      | .err m => .error (.inferError m)
    else .error (.nameError "io")

/-- Sequential page loop of the service: the first uncaught exception
aborts the whole batch (ocr_service.py has no try/except in the loop). -/
def svc_loop (step : ℕ → Except SvcError SvcResult) :
    List ℕ → List SvcResult → Except SvcError (List SvcResult)
  | [], acc => .ok acc
  | p :: ps, acc =>
    match step p with
    | .error e => .error e
    | .ok r => svc_loop step ps (acc ++ [r])

/-- `end_page` computation of `NorthflankOCRService.process_pdf`
(ocr_service.py 80-81), identical in shape to the client's. -/
def svc_end_page (tot sp : ℕ) (np : Option ℕ) : ℕ :=
  min (match np with | some n => if n = 0 then tot else sp + n | none => tot) tot

/-- `NorthflankOCRService.process_pdf` (ocr_service.py 69-106): either the
full results list, or the first page-level exception. -/
def service_process_pdf (ioInScope : Bool) (render : ℕ → Except String Unit)
    (oc : ℕ → PageOutcome) (tot sp : ℕ) (np : Option ℕ) :
    Except SvcError (List SvcResult) :=
  svc_loop (svc_page ioInScope render oc)
    ((List.range (svc_end_page tot sp np - sp)).map (fun i => sp + i)) []

/-- Success payload of `extract_text` (app.py 139-148), the fields the
batch endpoint propagates. -/
structure ExtractOk where
  extracted_text : List Char
  processing_time : ℚ
  tokens_generated : ℤ
deriving Repr, DecidableEq

/-- Per-file outcome of the `await extract_text(...)` call inside
`batch_extract` (app.py 178): success payload or exception message. -/
inductive FileOutcome where
  | ok (res : ExtractOk)
  | err (msg : String)
deriving Repr, DecidableEq

/-- One entry of the `results` list of `batch_extract` (app.py 176-187). -/
structure BatchEntry where
  file_index : ℕ
  filename : String
  result : Option ExtractOk
  error : Option String
deriving Repr, DecidableEq

/-- Builds the entry for file number `i`: the success dict extended with
`file_index`/`filename`, or the error dict (app.py 178-187). -/
def mk_entry (i : ℕ) : String × FileOutcome → BatchEntry
  | (name, .ok r) => { file_index := i, filename := name, result := some r, error := none }
  | (name, .err m) => { file_index := i, filename := name, result := none, error := some m }

/-- The `for i, file in enumerate(files)` loop of `batch_extract`
(app.py 176-187): one entry per file, in upload order, the per-file
try/except turning each failure into an error entry. -/
def batch_entries : ℕ → List (String × FileOutcome) → List BatchEntry
  | _, [] => []
  | i, f :: fs => mk_entry i f :: batch_entries (i + 1) fs

/-- Response shape of `batch_extract` (app.py 191-196). -/
structure BatchResponse where
  results : List BatchEntry
  total_files : ℕ
  total_time : ℚ
  avg_time_per_file : ℚ
deriving Repr, DecidableEq

/-- `batch_extract` (app.py 154-196), for a loaded model: the files are
given with their outcome of `extract_text`; `avg_time_per_file` is
`total_time / len(files) if files else 0`. -/
def batch_extract (files : List (String × FileOutcome)) (total_time : ℚ) :
    BatchResponse :=
  { results := batch_entries 0 files,
    total_files := files.length,
    total_time := total_time,
    avg_time_per_file := if files.isEmpty then 0 else total_time / (files.length : ℚ) }

/-- A 10-page document in which page index 3 fails (render or HTTP error)
and every other page succeeds in one unit of time. -/
def demo_outcome (p : ℕ) : PageOutcome :=
  if p = 3 then .err "boom" else .ok [] 1 0

/-- The client run over all 10 pages of that document. -/
def demo_run : LoopAcc := client_process_pdf 10 0 (some 10) [] demo_outcome

/-- Two uploaded files, the first succeeding and the second failing. -/
def demo_files : List (String × FileOutcome) := [("a", .ok ⟨[], 1, 0⟩), ("b", .err "x")]

lemma levenshtein_self (s : List Char) : levenshtein s s = 0 := by
  induction s with
  | nil => simp [levenshtein]
  | cons x xs ih => simp [levenshtein, ih]

lemma normalize_div (w h m : ℕ) (hlt : m < max w h) :
    normalize w h m = (w * m / max w h, h * m / max w h) := by
  unfold normalize
  rw [if_pos hlt]
  have key : ∀ a : ℕ,
      ⌊(a : ℚ) * ((m : ℚ) / ((max w h : ℕ) : ℚ))⌋₊ = a * m / max w h := by
    intro a
    rw [show (a : ℚ) * ((m : ℚ) / ((max w h : ℕ) : ℚ)) =
          ((a * m : ℕ) : ℚ) / ((max w h : ℕ) : ℚ) by push_cast; ring]
    rw [Nat.floor_div_nat, Nat.floor_natCast]
  rw [key w, key h]

lemma sum_times_append (l : List ClientRecord) (r : ClientRecord) :
    sum_times (l ++ [r]) = sum_times l + r.processing_time.getD 0 := by
  simp [sum_times]

lemma batch_entries_length (fs : List (String × FileOutcome)) (i : ℕ) :
    (batch_entries i fs).length = fs.length := by
  induction fs generalizing i with
  | nil => rfl
  | cons f fs ih => simp [batch_entries, ih]

lemma batch_entries_getD (fs : List (String × FileOutcome)) (j i : ℕ)
    (h : i < fs.length) :
    (batch_entries j fs).getD i ⟨0, "", none, none⟩ =
      mk_entry (j + i) (fs.getD i ("", .err "")) := by
  induction fs generalizing j i with
  | nil => simp at h
  | cons f fs ih =>
    cases i with
    | zero => simp [batch_entries]
    | succ i =>
      have hi : i < fs.length := by simpa using h
      have harith : j + 1 + i = j + (i + 1) := by omega
      simp only [batch_entries, List.getD_cons_succ, ih (j + 1) i hi, harith]

/-- Claim C1 (code bug).  The spec demands exactly `endPage - startPage`
records however many pages fail, but on a run of the 10 requested pages of
`demo_run` with page index 3 failing, the client produces 11 records: at
page index 9 the every-10-pages progress update reads `r['processing_time']`
of the failed record, raises `KeyError` inside the `try`, and the handler
appends a second record for the already-recorded page 10. -/
theorem C1_record_count_code_bug :
    client_end_page 10 0 (some 10) = 10 ∧ demo_run.results.length = 11 := by
  decide

/-- Claim C2 (code bug).  The spec says result aggregation never raises and
an all-failed document yields empty text and "no data" statistics, but with
every page failed no record dict carries the `processing_time` key, so
`pd.DataFrame(results)` has no such column and `print_summary`'s
`df['processing_time']` raises `KeyError`; only the concatenated text part
is empty as specified. -/
theorem C2_aggregation_code_bug :
    save_results [err_rec 1 "boom"] [] =
      (([] : List Char), Except.error "KeyError: processing_time") := by
  rfl

/-- Claim C3, counterexample.  A requested range `[2, 7)` on a 3-page
document is outside `[0, 3]`, yet no ConfigurationError exists or is
raised: the end is silently clamped and one ordinary success record is
produced, contradicting both "raised at batch start" and "no PageRecord is
produced". -/
theorem C3_counterexample :
    3 < 2 + 5 ∧
    (client_process_pdf 3 2 (some 5) [] demo_outcome).results =
      [ok_rec 3 [] 1 0 none] := by
  decide

/-- Claim C3, amended.  Neither batch entry point validates its
configuration: the requested end page is clamped to the page count, a start
page at or beyond the page count yields an empty record sequence with no
exception, and non-positive DPI or maxTokens are passed through to
per-page processing rather than rejected at batch start. -/
theorem C3_no_validation (tot sp : ℕ) (np : Option ℕ) (gt : List (List Char))
    (oc : ℕ → PageOutcome) (h : tot ≤ sp) :
    (client_process_pdf tot sp np gt oc).results = [] ∧
    (client_process_pdf tot sp np gt oc).etas = [] := by
  have hle : client_end_page tot sp np ≤ tot := min_le_right _ _
  have h0 : client_end_page tot sp np - sp = 0 :=
    Nat.sub_eq_zero_of_le (hle.trans h)
  unfold client_process_pdf
  rw [h0]
  exact ⟨rfl, rfl⟩

/-- Witness for C3_no_validation at a concrete out-of-range start page. -/
theorem C3_witness :
    (client_process_pdf 3 10 none [] demo_outcome).results = [] :=
  (C3_no_validation 3 10 none [] demo_outcome (by decide)).1

/-- Claim C4, counterexample.  If the backend returned a sequence of length
2 against a 5-token prompt, the code's `len(outputs[0]) -
len(inputs['input_ids'][0])` is -3: nothing clamps the count to 0. -/
theorem C4_counterexample :
    tokens_generated 2 5 = -3 ∧ tokens_generated 2 5 < 0 := by
  decide

/-- Claim C4, amended.  The token count is the plain signed difference
`generatedLength - promptLength`; it is non-negative exactly when the
generated sequence is at least as long as the prompt, and is negative
(not clamped to 0) when the backend returns a shorter sequence. -/
theorem C4_token_count (g p : ℕ) :
    tokens_generated g p = (g : ℤ) - (p : ℤ) ∧
    (0 ≤ tokens_generated g p ↔ p ≤ g) := by
  refine ⟨rfl, ?_⟩
  unfold tokens_generated
  rw [sub_nonneg]
  exact Nat.cast_le

/-- Claim C5, counterexample.  A 2000×1001 image capped at 1200 becomes
1200×600 in the code (Python `int()` truncates 600.6 down), while rounding
to the nearest integer as claimed would give 601. -/
theorem C5_counterexample :
    normalize 2000 1001 1200 = (1200, 600) ∧
    round ((1001 : ℚ) * 1200 / 2000) = (601 : ℤ) := by
  constructor
  · rw [normalize_div 2000 1001 1200 (by decide)]
    decide
  · rw [round_eq,
      show ((1001 : ℚ) * 1200 / 2000 + 1 / 2) = 6011 / 10 by norm_num,
      Int.floor_eq_iff]
    constructor <;> norm_num

/-- Claim C5, amended.  Normalization is the identity when
`max(width, height) ≤ maxEdge`; otherwise both dimensions are scaled by
`maxEdge / max(width, height)` and each scaled dimension is truncated
(rounded down), which is exactly natural-number division. -/
theorem C5_normalize_floor (w h m : ℕ) :
    normalize w h m =
      if max w h ≤ m then (w, h)
      else (w * m / max w h, h * m / max w h) := by
  by_cases hc : max w h ≤ m
  · rw [if_pos hc]
    unfold normalize
    rw [if_neg (not_lt.2 hc)]
  · rw [if_neg hc]
    exact normalize_div w h m (not_le.1 hc)

/-- Claim C6 (confirmed).  The scorer returns
`cer = editDistance / len(reference)` when the reference is nonempty and 0
otherwise, `accuracy = 1 - editDistance / max(len(reference),
len(hypothesis))` when that max is positive and 1 otherwise, with the edit
distance of the standard recurrence; and `score(s, s)` yields edit
distance 0, cer 0 and accuracy 1 for every string `s`, the empty string
included, with no division by zero. -/
theorem C6_calculate_metrics (ref hyp s : List Char) :
    (calculate_metrics ref hyp).edit_distance = levenshtein ref hyp ∧
    (calculate_metrics ref hyp).cer =
      (if 0 < ref.length then (levenshtein ref hyp : ℚ) / (ref.length : ℚ) else 0) ∧
    (calculate_metrics ref hyp).accuracy =
      (if 0 < max ref.length hyp.length then
        1 - (levenshtein ref hyp : ℚ) / ((max ref.length hyp.length : ℕ) : ℚ)
      else 1) ∧
    (calculate_metrics s s).edit_distance = 0 ∧
    (calculate_metrics s s).cer = 0 ∧
    (calculate_metrics s s).accuracy = 1 := by
  refine ⟨rfl, rfl, rfl, ?_, ?_, ?_⟩
  · simp [calculate_metrics, levenshtein_self]
  · simp [calculate_metrics, levenshtein_self]
  · simp [calculate_metrics, levenshtein_self]

/-- Claim C7, counterexample.  In `demo_run` (page index 3 failed), the
10th page's progress update emits no ETA at all: the step raises `KeyError`
on the failed record and instead appends an extra error record for the
current page, so the step does not succeed "regardless of whether earlier
pages failed". -/
theorem C7_counterexample :
    demo_run.etas = [] ∧
    demo_run.results.getD 10 (err_rec 0 "") =
      err_rec 10 "KeyError: processing_time" := by
  decide

/-- Claim C7, amended.  Every 10 processed pages (hardcoded, not
configurable), provided every record so far carries timing data (no
earlier page failed), the client emits a progress notification whose ETA
is the number of remaining pages times the mean recorded per-page latency
including the current page. -/
theorem C7_progress_eta (gt : List (List Char)) (oc : ℕ → PageOutcome)
    (sp ep p : ℕ) (acc : LoopAcc) (text : List Char) (t : ℚ) (tok : ℤ)
    (hok : oc p = .ok text t tok)
    (hall : acc.results.all (fun r => r.processing_time.isSome) = true)
    (hmod : (p - sp + 1) % 10 = 0) :
    (client_step gt oc sp ep acc p).etas =
      acc.etas ++ [(((ep - p - 1 : ℕ) : ℚ)) *
        ((sum_times acc.results + t) / ((acc.results.length : ℚ) + 1))] := by
  unfold client_step
  rw [hok]
  simp [hmod, List.all_append, hall, ok_rec, sum_times_append]

/-- Witness for C7_progress_eta: an empty accumulator at page index 9 of a
20-page range, one time unit per page, gives ETA 10. -/
theorem C7_witness :
    (client_step [] demo_outcome 0 20 ⟨[], [], []⟩ 9).etas = [10] := by
  have h := C7_progress_eta [] demo_outcome 0 20 9 ⟨[], [], []⟩ [] 1 0 rfl rfl rfl
  rw [h]
  norm_num [sum_times]

/-- Claim C8 (code bug).  The spec demands unique, strictly increasing
pageNumber values in page-index order, but in `demo_run` the records at
positions 9 and 10 both carry pageNumber 10: the progress-update `KeyError`
appends a duplicate record for the page that was already recorded. -/
theorem C8_page_order_code_bug :
    (demo_run.results.getD 9 (err_rec 0 "")).page_num = 10 ∧
    (demo_run.results.getD 10 (err_rec 0 "")).page_num = 10 := by
  decide

/-- Claim C9 (confirmed).  With the module imported rather than run as a
script, the name `io` is unbound in `NorthflankOCRService.process_pdf`, so
for any PDF whose requested range is nonempty (and whose first page
renders), the method raises `NameError` on the first page and never
returns a result list. -/
theorem C9_name_error (render : ℕ → Except String Unit)
    (oc : ℕ → PageOutcome) (tot sp : ℕ) (np : Option ℕ)
    (h1 : sp < svc_end_page tot sp np) (h2 : render sp = .ok ()) :
    service_process_pdf false render oc tot sp np =
      .error (.nameError "io") := by
  obtain ⟨m, hm⟩ : ∃ m, svc_end_page tot sp np - sp = m + 1 :=
    ⟨svc_end_page tot sp np - sp - 1, by omega⟩
  unfold service_process_pdf
  rw [hm, List.range_succ_eq_map]
  simp [svc_loop, svc_page, h2]

/-- Witness for C9_name_error on a 1-page document. -/
theorem C9_witness :
    service_process_pdf false (fun _ => .ok ()) (fun _ => .ok [] 1 0)
      1 0 none = .error (.nameError "io") :=
  C9_name_error _ _ 1 0 none (by decide) rfl

/-- Claim C10 (confirmed).  With a loaded model, `/ocr/batch` returns one
entry per uploaded file in upload order, each the per-file success or
per-file error record of that file (one failure never aborts the batch),
and `avg_time_per_file` is 0 for an empty file list, with no division by
zero. -/
theorem C10_batch (files : List (String × FileOutcome)) (t : ℚ) :
    (batch_extract files t).results.length = files.length ∧
    (∀ i, i < files.length →
      (batch_extract files t).results.getD i ⟨0, "", none, none⟩ =
        mk_entry i (files.getD i ("", .err ""))) ∧
    (files = [] → (batch_extract files t).avg_time_per_file = 0) := by
  refine ⟨batch_entries_length files 0, ?_, ?_⟩
  · intro i h
    have hg := batch_entries_getD files 0 i h
    simpa [batch_extract] using hg
  · rintro rfl
    rfl

/-- Witness for C10_batch on two files, the second failing, and on the
empty upload list. -/
theorem C10_witness :
    (batch_extract demo_files 6).results.length = 2 ∧
    (batch_extract demo_files 6).results.getD 1 ⟨0, "", none, none⟩ =
      mk_entry 1 ("b", .err "x") ∧
    (batch_extract [] 6).avg_time_per_file = 0 :=
  ⟨(C10_batch demo_files 6).1,
   (C10_batch demo_files 6).2.1 1 (by decide),
   (C10_batch [] 6).2.2 rfl⟩

end PaddleNF
